import Mathlib

/-!
Verification of the serverless health-check probe (`health-check.py`).

The handler `lambda_handler(event, context)`:
* records a timestamp,
* probes an HTTP endpoint (GET to a fixed URL), mapping a 200 response to
  the status string "healthy", any other successful response to "degraded",
  and any raised error to "unhealthy";
* constructs a table-storage client (outside any try block) and issues a
  describe-table call for a fixed table name, mapping success to "healthy"
  and any raised error to "unhealthy";
* emits one metric sample per recorded service (namespace "Bvester/Health",
  metric name "<service>_health", value 1 if the status is "healthy" else 0,
  unit "None", current timestamp), with no error handling around emission;
* returns a response with statusCode 200 and body the JSON encoding of the
  report.

The embedding makes the external world explicit as an `Env`: the outcome of
the HTTP GET, whether client construction succeeds, whether the describe
call succeeds, whether each metric-emission call succeeds, and a stream of
clock readings (one per call of the current-time function).  The handler is
a pure function from the environment (and the ignored event and context
arguments) to the list of outbound calls it performs, in order, together
with its outcome: either a returned response or a propagated exception.
-/

/-- Status string written for a healthy service. -/
def healthy : String := "healthy"

/-- Status string written for a reachable but non-200 HTTP service. -/
def degraded : String := "degraded"

/-- Status string written when a check raises. -/
def unhealthy : String := "unhealthy"

/-- The fixed URL probed for the api_gateway check (line 17 of the source). -/
def apiUrl : String := "https://y06kgtou3i.execute-api.eu-west-2.amazonaws.com/prod/health"

/-- The fixed table name of the dynamodb check (line 25 of the source). -/
def tableName : String := "bvester-users"

/-- Key of the HTTP check in the services mapping. -/
def apiGatewayKey : String := "api_gateway"

/-- Key of the table-storage check in the services mapping. -/
def dynamodbKey : String := "dynamodb"

/-- The metric namespace (line 33 of the source). -/
def metricNamespace : String := "Bvester/Health"

/-- The metric unit (line 37 of the source). -/
def metricUnit : String := "None"

/-- The external world a single invocation runs against.
`clock n` is the string returned by the n-th current-time call of the
invocation (call 0 is the report timestamp; calls 1, 2, ... are the metric
timestamps).  `httpResult` is `some s` when the HTTP GET succeeds with
status code `s` and `none` when it raises.  `clientOk` tells whether
constructing the table-storage client succeeds, `describeOk` whether the
describe-table call succeeds, and `putMetricOk i` whether the i-th
metric-emission call succeeds. -/
structure Env where
  clock : Nat → String
  httpResult : Option Nat
  clientOk : Bool
  describeOk : Bool
  putMetricOk : Nat → Bool

/-- One outbound call of the handler, recorded when the call is attempted. -/
inductive Event where
  | httpGet : String → Event
  | describeTable : String → Event
  | putMetricData : String → String → Nat → String → String → Event
deriving DecidableEq, Repr

/-- The report dictionary: a timestamp and the services mapping, kept as an
insertion-ordered association list, as a Python dict is. -/
structure HealthStatus where
  timestamp : String
  services : List (String × String)
deriving DecidableEq, Repr

/-- The value `lambda_handler` returns on the normal path (lines 42-45). -/
structure Response where
  statusCode : Nat
  body : String
deriving DecidableEq, Repr

/-- Result of an invocation: a propagated exception, or a returned value. -/
inductive Outcome where
  | raised : Outcome
  | returned : Response → Outcome
deriving DecidableEq, Repr

/-- Assignment `d[k] = v` on an insertion-ordered dictionary: replace the
value if the key is present, else append the new pair. -/
def setKey (l : List (String × String)) (k v : String) : List (String × String) :=
  if l.any (fun p => p.1 = k) then
    l.map (fun p => if p.1 = k then (k, v) else p)
  else
    l ++ [(k, v)]

/-- Quote a string as its JSON literal (the report strings need no escaping). -/
def jsonQuote (s : String) : String := "\"" ++ s ++ "\""

/-- JSON encoding of the services mapping, in insertion order, with the
default separators of the source serializer. -/
def dumpsServices (l : List (String × String)) : String :=
  "\x7b" ++ String.intercalate ", " (l.map (fun p => jsonQuote p.1 ++ ": " ++ jsonQuote p.2)) ++ "\x7d"

/-- JSON encoding of the whole report (`json.dumps(health_status)`, line 44). -/
def dumpsReport (h : HealthStatus) : String :=
  "\x7b" ++ jsonQuote ("timestamp") ++ ": " ++ jsonQuote h.timestamp ++ ", "
    ++ jsonQuote ("services") ++ ": " ++ dumpsServices h.services ++ "\x7d"

/-- Status written by the api_gateway check (lines 16-20): "healthy" on a
200 response, "degraded" on any other successful response, "unhealthy" when
the GET raises. -/
def apiGatewayStatus (env : Env) : String :=
  match env.httpResult with
  | some s => if s = 200 then healthy else degraded
  | none => unhealthy

/-- Status written by the dynamodb check (lines 24-28): "healthy" when the
describe-table call succeeds, "unhealthy" when it raises. -/
def dynamodbStatus (env : Env) : String :=
  if env.describeOk then healthy else unhealthy

/-- Metric value for a status (line 36): 1 if "healthy" else 0. -/
def metricValue (status : String) : Nat :=
  if status = healthy then 1 else 0

/-- The metric-emission loop (lines 31-40).  `i` counts the calls already
made this invocation, to index the success flags and the clock (the loop
reads the current time once per iteration, after the initial timestamp
read).  Returns the emission calls attempted, in order, and whether the
loop ran to completion (false when a call raised, ending the loop there). -/
def putMetricsLoop (env : Env) : Nat → List (String × String) → List Event × Bool
  | _, [] => ([], true)
  | i, (service, status) :: rest =>
      let ev := Event.putMetricData metricNamespace (service ++ "_health")
        (metricValue status) metricUnit (env.clock (i + 1))
      if env.putMetricOk i then
        let r := putMetricsLoop env (i + 1) rest
        (ev :: r.1, r.2)
      else
        ([ev], false)

/-- The handler (lines 9-45), as a function of the environment and the
(ignored) event and context arguments.  It records the timestamp, runs the
api_gateway check (the bare except absorbs a raised GET), constructs the
table-storage client outside any try block (so a construction failure
propagates), runs the dynamodb check (the bare except absorbs a raised
describe call), emits one metric per recorded service with no error
handling, and returns statusCode 200 with the JSON-encoded report. -/
def lambda_handler (env : Env) (event : String) (context : String) : List Event × Outcome :=
  let timestamp := env.clock 0
  let services1 := setKey [] apiGatewayKey (apiGatewayStatus env)
  if env.clientOk then
    let services2 := setKey services1 dynamodbKey (dynamodbStatus env)
    let pm := putMetricsLoop env 0 services2
    let trace := Event.httpGet apiUrl :: Event.describeTable tableName :: pm.1
    if pm.2 then
      (trace, Outcome.returned ⟨200, dumpsReport ⟨timestamp, services2⟩⟩)
    else
      (trace, Outcome.raised)
  else
    ([Event.httpGet apiUrl], Outcome.raised)

/-- Recognizer of metric-emission events in a trace. -/
def Event.isPutMetricData : Event → Bool
  | putMetricData _ _ _ _ _ => true
  | _ => false

/-- Concrete environment for the witnesses: every external call succeeds and
the HTTP endpoint answers 200. -/
def clockW : Nat → String := fun _ => "2026-01-01T00:00:00"

/-- Concrete (ignored) event payload for the witnesses. -/
def eW : String := "scheduled-event"

/-- Concrete (ignored) execution context for the witnesses. -/
def cW : String := "ctx"

/-- Environment in which every external call succeeds with HTTP 200. -/
def envW : Env := ⟨clockW, some 200, true, true, fun _ => true⟩

/-- The response `lambda_handler` produces in `envW`. -/
def respW : Response :=
  ⟨200, dumpsReport ⟨clockW 0, [(apiGatewayKey, healthy), (dynamodbKey, healthy)]⟩⟩

/-- Environment in which both checks fail but everything else succeeds. -/
def envDown : Env := ⟨clockW, none, true, false, fun _ => true⟩

/-- Environment in which constructing the table-storage client raises. -/
def envNoClient : Env := ⟨clockW, some 200, false, true, fun _ => true⟩

/-- Environment in which metric emission raises. -/
def envMetricFail : Env := ⟨clockW, some 200, true, true, fun _ => false⟩

/-- The two dictionary assignments build the two-entry services mapping in
insertion order. -/
theorem setKey_build (x y : String) :
    setKey (setKey [] apiGatewayKey x) dynamodbKey y
      = [(apiGatewayKey, x), (dynamodbKey, y)] := by
  simp [setKey, apiGatewayKey, dynamodbKey]

/-- On the normal path the response is fully determined: statusCode 200 and
the JSON encoding of the report with timestamp `clock 0` and both service
statuses, in insertion order. -/
theorem handler_returned_shape (env : Env) (e c : String) (resp : Response)
    (h : (lambda_handler env e c).2 = Outcome.returned resp) :
    resp = ⟨200, dumpsReport ⟨env.clock 0,
      [(apiGatewayKey, apiGatewayStatus env), (dynamodbKey, dynamodbStatus env)]⟩⟩ := by
  simp only [lambda_handler, setKey_build] at h
  cases hc : env.clientOk with
  | false => simp [hc] at h
  | true =>
    simp only [hc, if_true] at h
    cases hpm : (putMetricsLoop env 0 [(apiGatewayKey, apiGatewayStatus env), (dynamodbKey, dynamodbStatus env)]).2 with
    | false => simp [hpm] at h
    | true =>
      simp only [hpm, if_true] at h
      exact (Outcome.returned.inj h).symm

/-- On the normal path the trace is fully determined: the GET, then the
describe call, then the two metric emissions in insertion order of the
services mapping, each with its own clock reading. -/
theorem handler_returned_trace (env : Env) (e c : String) (resp : Response)
    (h : (lambda_handler env e c).2 = Outcome.returned resp) :
    (lambda_handler env e c).1 =
      [Event.httpGet apiUrl, Event.describeTable tableName,
       Event.putMetricData metricNamespace (apiGatewayKey ++ "_health")
         (metricValue (apiGatewayStatus env)) metricUnit (env.clock 1),
       Event.putMetricData metricNamespace (dynamodbKey ++ "_health")
         (metricValue (dynamodbStatus env)) metricUnit (env.clock 2)] := by
  simp only [lambda_handler, setKey_build] at h ⊢
  cases hc : env.clientOk with
  | false => simp [hc] at h
  | true =>
    simp only [hc, if_true] at h ⊢
    cases h0 : env.putMetricOk 0 with
    | false => simp [putMetricsLoop, h0] at h
    | true =>
      cases h1 : env.putMetricOk 1 with
      | false => simp [putMetricsLoop, h0, h1] at h
      | true => simp [putMetricsLoop, h0, h1]

/-- The two service keys are distinct strings. -/
theorem dynKey_ne_apiKey : (dynamodbKey == apiGatewayKey) = false := by decide

/-- The api_gateway check writes one of the three status strings. -/
theorem apiGatewayStatus_cases (env : Env) :
    apiGatewayStatus env = healthy ∨ apiGatewayStatus env = degraded
      ∨ apiGatewayStatus env = unhealthy := by
  unfold apiGatewayStatus
  cases env.httpResult with
  | none => exact Or.inr (Or.inr rfl)
  | some s =>
    by_cases hs : s = 200
    · exact Or.inl (by simp [hs])
    · exact Or.inr (Or.inl (by simp [hs]))

/-- The dynamodb check writes one of the status strings. -/
theorem dynamodbStatus_cases (env : Env) :
    dynamodbStatus env = healthy ∨ dynamodbStatus env = degraded
      ∨ dynamodbStatus env = unhealthy := by
  unfold dynamodbStatus
  cases hd : env.describeOk with
  | false => exact Or.inr (Or.inr (by simp))
  | true => exact Or.inl (by simp)

/-- The metric value is always 0 or 1. -/
theorem metricValue_cases (st : String) : metricValue st = 0 ∨ metricValue st = 1 := by
  unfold metricValue
  by_cases hs : st = healthy <;> simp [hs]

/-- C1: for every invocation that returns normally, the api_gateway entry of
the report is "healthy" if the HTTP GET returned status code exactly 200,
"degraded" if the call succeeded with any other status code, and
"unhealthy" if the call raised any error. -/
theorem api_gateway_entry_spec (env : Env) (e c : String) (resp : Response)
    (h : (lambda_handler env e c).2 = Outcome.returned resp) :
    ∃ svs : List (String × String),
      resp.body = dumpsReport ⟨env.clock 0, svs⟩ ∧
      (env.httpResult = some 200 → svs.lookup apiGatewayKey = some healthy) ∧
      (∀ s : Nat, env.httpResult = some s → s ≠ 200 →
        svs.lookup apiGatewayKey = some degraded) ∧
      (env.httpResult = none → svs.lookup apiGatewayKey = some unhealthy) := by
  refine ⟨[(apiGatewayKey, apiGatewayStatus env), (dynamodbKey, dynamodbStatus env)],
    ?_, ?_, ?_, ?_⟩
  · rw [handler_returned_shape env e c resp h]
  · intro h200
    simp [apiGatewayStatus, h200, List.lookup]
  · intro s hs hne
    simp [apiGatewayStatus, hs, hne, List.lookup]
  · intro hn
    simp [apiGatewayStatus, hn, List.lookup]

/-- Witness for C1 in the environment where the endpoint answers 200. -/
theorem api_gateway_entry_spec_witness :
    ∃ svs : List (String × String),
      respW.body = dumpsReport ⟨envW.clock 0, svs⟩ ∧
      (envW.httpResult = some 200 → svs.lookup apiGatewayKey = some healthy) ∧
      (∀ s : Nat, envW.httpResult = some s → s ≠ 200 →
        svs.lookup apiGatewayKey = some degraded) ∧
      (envW.httpResult = none → svs.lookup apiGatewayKey = some unhealthy) :=
  api_gateway_entry_spec envW eW cW respW rfl

/-- C2: for every invocation that returns normally, the dynamodb entry of
the report is "healthy" if the describe-table call completed without error
and "unhealthy" if it raised any error. -/
theorem dynamodb_entry_spec (env : Env) (e c : String) (resp : Response)
    (h : (lambda_handler env e c).2 = Outcome.returned resp) :
    ∃ svs : List (String × String),
      resp.body = dumpsReport ⟨env.clock 0, svs⟩ ∧
      (env.describeOk = true → svs.lookup dynamodbKey = some healthy) ∧
      (env.describeOk = false → svs.lookup dynamodbKey = some unhealthy) := by
  refine ⟨[(apiGatewayKey, apiGatewayStatus env), (dynamodbKey, dynamodbStatus env)],
    ?_, ?_, ?_⟩
  · rw [handler_returned_shape env e c resp h]
  · intro hd
    simp [dynamodbStatus, hd, List.lookup, dynKey_ne_apiKey]
  · intro hd
    simp [dynamodbStatus, hd, List.lookup, dynKey_ne_apiKey]

/-- Witness for C2 in the environment where the describe call succeeds. -/
theorem dynamodb_entry_spec_witness :
    ∃ svs : List (String × String),
      respW.body = dumpsReport ⟨envW.clock 0, svs⟩ ∧
      (envW.describeOk = true → svs.lookup dynamodbKey = some healthy) ∧
      (envW.describeOk = false → svs.lookup dynamodbKey = some unhealthy) :=
  dynamodb_entry_spec envW eW cW respW rfl

/-- C3: on every invocation that returns normally, exactly one
metric-emission call is made per entry of the services mapping (two in
total), each to namespace "Bvester/Health" with metric name
"<service>_health" and value 1 when that service's status is "healthy" and
0 otherwise (so both "degraded" and "unhealthy" yield 0), and every
metric-emission call of the invocation carries the value 0 or the value 1. -/
theorem metric_emission_spec (env : Env) (e c : String) (resp : Response)
    (h : (lambda_handler env e c).2 = Outcome.returned resp) :
    (lambda_handler env e c).1.filter Event.isPutMetricData =
      [Event.putMetricData metricNamespace (apiGatewayKey ++ "_health")
         (if apiGatewayStatus env = healthy then 1 else 0) metricUnit (env.clock 1),
       Event.putMetricData metricNamespace (dynamodbKey ++ "_health")
         (if dynamodbStatus env = healthy then 1 else 0) metricUnit (env.clock 2)] ∧
    (∀ ev ∈ (lambda_handler env e c).1, ∀ ns nm u ts, ∀ v : Nat,
      ev = Event.putMetricData ns nm v u ts → v = 0 ∨ v = 1) := by
  have ht := handler_returned_trace env e c resp h
  constructor
  · rw [ht]
    simp [List.filter, Event.isPutMetricData, metricValue]
  · intro ev hev ns nm u ts v hv
    rw [ht] at hev
    subst hv
    simp only [List.mem_cons, List.not_mem_nil, or_false] at hev
    rcases hev with h1 | h2 | h3 | h4
    · exact absurd h1 (by simp)
    · exact absurd h2 (by simp)
    · rcases Event.putMetricData.inj h3 with ⟨-, -, hx, -, -⟩
      rw [hx]
      exact metricValue_cases (apiGatewayStatus env)
    · rcases Event.putMetricData.inj h4 with ⟨-, -, hx, -, -⟩
      rw [hx]
      exact metricValue_cases (dynamodbStatus env)

/-- Witness for C3 in the all-healthy environment. -/
theorem metric_emission_spec_witness :
    (lambda_handler envW eW cW).1.filter Event.isPutMetricData =
      [Event.putMetricData metricNamespace (apiGatewayKey ++ "_health")
         (if apiGatewayStatus envW = healthy then 1 else 0) metricUnit (envW.clock 1),
       Event.putMetricData metricNamespace (dynamodbKey ++ "_health")
         (if dynamodbStatus envW = healthy then 1 else 0) metricUnit (envW.clock 2)] ∧
    (∀ ev ∈ (lambda_handler envW eW cW).1, ∀ ns nm u ts, ∀ v : Nat,
      ev = Event.putMetricData ns nm v u ts → v = 0 ∨ v = 1) :=
  metric_emission_spec envW eW cW respW rfl

/-- C4: every invocation that returns normally returns statusCode 200 —
whatever the statuses of the monitored dependencies — and a body that is
the JSON encoding of the health report. -/
theorem response_envelope_spec (env : Env) (e c : String) (resp : Response)
    (h : (lambda_handler env e c).2 = Outcome.returned resp) :
    resp.statusCode = 200 ∧
    resp.body = dumpsReport ⟨env.clock 0,
      [(apiGatewayKey, apiGatewayStatus env), (dynamodbKey, dynamodbStatus env)]⟩ := by
  rw [handler_returned_shape env e c resp h]
  exact ⟨rfl, rfl⟩

/-- Witness for C4 in the all-healthy environment. -/
theorem response_envelope_spec_witness :
    respW.statusCode = 200 ∧
    respW.body = dumpsReport ⟨envW.clock 0,
      [(apiGatewayKey, apiGatewayStatus envW), (dynamodbKey, dynamodbStatus envW)]⟩ :=
  response_envelope_spec envW eW cW respW rfl

/-- C5: the returned body is the encoding of a report carrying exactly a
timestamp and a services mapping, whose key list is exactly api_gateway
followed by dynamodb, each bound to one of the three status strings — never
a partial report. -/
theorem report_keys_spec (env : Env) (e c : String) (resp : Response)
    (h : (lambda_handler env e c).2 = Outcome.returned resp) :
    ∃ r : HealthStatus, resp.body = dumpsReport r ∧
      r.services.map Prod.fst = [apiGatewayKey, dynamodbKey] ∧
      (∀ p ∈ r.services, p.2 = healthy ∨ p.2 = degraded ∨ p.2 = unhealthy) := by
  refine ⟨⟨env.clock 0,
    [(apiGatewayKey, apiGatewayStatus env), (dynamodbKey, dynamodbStatus env)]⟩,
    ?_, rfl, ?_⟩
  · rw [handler_returned_shape env e c resp h]
  · intro p hp
    simp only [List.mem_cons, List.not_mem_nil, or_false] at hp
    rcases hp with hp | hp <;> subst hp
    · exact apiGatewayStatus_cases env
    · exact dynamodbStatus_cases env

/-- Witness for C5 in the all-healthy environment. -/
theorem report_keys_spec_witness :
    ∃ r : HealthStatus, respW.body = dumpsReport r ∧
      r.services.map Prod.fst = [apiGatewayKey, dynamodbKey] ∧
      (∀ p ∈ r.services, p.2 = healthy ∨ p.2 = degraded ∨ p.2 = unhealthy) :=
  report_keys_spec envW eW cW respW rfl

/-- C6: errors raised inside either service check are absorbed locally and
never propagate — for every outcome of the HTTP call and of the describe
call, as long as no error occurs outside the checks (client construction
and metric emission succeed), the invocation returns normally with both
services recorded, so one check's failure cannot prevent the other check
from being recorded. -/
theorem check_errors_isolated (env : Env) (e c : String)
    (hclient : env.clientOk = true)
    (hm0 : env.putMetricOk 0 = true) (hm1 : env.putMetricOk 1 = true) :
    ∃ resp : Response, (lambda_handler env e c).2 = Outcome.returned resp ∧
      resp.body = dumpsReport ⟨env.clock 0,
        [(apiGatewayKey, apiGatewayStatus env), (dynamodbKey, dynamodbStatus env)]⟩ := by
  refine ⟨⟨200, dumpsReport ⟨env.clock 0,
    [(apiGatewayKey, apiGatewayStatus env), (dynamodbKey, dynamodbStatus env)]⟩⟩, ?_, rfl⟩
  simp [lambda_handler, setKey_build, hclient, putMetricsLoop, hm0, hm1]

/-- Witness for C6 in the environment where both checks fail yet the
invocation still returns a full report. -/
theorem check_errors_isolated_witness :
    ∃ resp : Response, (lambda_handler envDown eW cW).2 = Outcome.returned resp ∧
      resp.body = dumpsReport ⟨envDown.clock 0,
        [(apiGatewayKey, apiGatewayStatus envDown), (dynamodbKey, dynamodbStatus envDown)]⟩ :=
  check_errors_isolated envDown eW cW rfl rfl rfl

/-- C7: when a metric-emission call raises (and the metric loop is reached
at all, i.e. client construction succeeded), the error is not caught: the
invocation raises and no response is produced. -/
theorem metric_error_fails_invocation (env : Env) (e c : String)
    (hclient : env.clientOk = true)
    (hm : env.putMetricOk 0 = false ∨ env.putMetricOk 1 = false) :
    (lambda_handler env e c).2 = Outcome.raised := by
  simp only [lambda_handler, setKey_build, hclient, if_true]
  rcases hm with hm | hm
  · simp [putMetricsLoop, hm]
  · cases h0 : env.putMetricOk 0 with
    | false => simp [putMetricsLoop, h0]
    | true => simp [putMetricsLoop, h0, hm]

/-- Witness for C7 in the environment where metric emission raises. -/
theorem metric_error_fails_invocation_witness :
    (lambda_handler envMetricFail eW cW).2 = Outcome.raised :=
  metric_error_fails_invocation envMetricFail eW cW rfl (Or.inl rfl)

/-- C8: the event payload and execution context have no influence — two
invocations against the same external world (same HTTP, table-storage and
metric behaviour, same clock readings) perform the same outbound calls and
produce the same outcome whatever their event and context arguments. -/
theorem event_context_ignored (env : Env) (e e' c c' : String) :
    lambda_handler env e c = lambda_handler env e' c' := rfl

/-- C9: the fault isolation of the dynamodb check does not cover client
construction: if constructing the table-storage client raises, the
invocation raises with no report, even though the api_gateway check (the
HTTP GET) has already been performed. -/
theorem client_error_propagates (env : Env) (e c : String)
    (h : env.clientOk = false) :
    lambda_handler env e c = ([Event.httpGet apiUrl], Outcome.raised) := by
  simp [lambda_handler, h]

/-- Witness for C9 in the environment where client construction raises. -/
theorem client_error_propagates_witness :
    lambda_handler envNoClient eW cW = ([Event.httpGet apiUrl], Outcome.raised) :=
  client_error_propagates envNoClient eW cW rfl

/-- C10: on every invocation — whether it returns or raises — the outbound
calls occur in a fixed order: the trace is a prefix of the HTTP GET, then
the describe-table call, then the api_gateway metric emission, then the
dynamodb metric emission.  In particular the GET always comes first, the
describe call second, both metric emissions come only after both checks,
the api_gateway metric precedes the dynamodb metric, and no metric is ever
emitted before both checks have recorded their status. -/
theorem effects_order_spec (env : Env) (e c : String) :
    ∃ rest : List Event,
      (lambda_handler env e c).1 ++ rest =
        [Event.httpGet apiUrl, Event.describeTable tableName,
         Event.putMetricData metricNamespace (apiGatewayKey ++ "_health")
           (metricValue (apiGatewayStatus env)) metricUnit (env.clock 1),
         Event.putMetricData metricNamespace (dynamodbKey ++ "_health")
           (metricValue (dynamodbStatus env)) metricUnit (env.clock 2)] := by
  cases hc : env.clientOk with
  | false =>
    exact ⟨[Event.describeTable tableName,
            Event.putMetricData metricNamespace (apiGatewayKey ++ "_health")
              (metricValue (apiGatewayStatus env)) metricUnit (env.clock 1),
            Event.putMetricData metricNamespace (dynamodbKey ++ "_health")
              (metricValue (dynamodbStatus env)) metricUnit (env.clock 2)],
           by simp [lambda_handler, hc]⟩
  | true =>
    cases h0 : env.putMetricOk 0 with
    | false =>
      exact ⟨[Event.putMetricData metricNamespace (dynamodbKey ++ "_health")
               (metricValue (dynamodbStatus env)) metricUnit (env.clock 2)],
             by simp [lambda_handler, setKey_build, hc, putMetricsLoop, h0]⟩
    | true =>
      cases h1 : env.putMetricOk 1 with
      | false =>
        exact ⟨[], by simp [lambda_handler, setKey_build, hc, putMetricsLoop, h0, h1]⟩
      | true =>
        exact ⟨[], by simp [lambda_handler, setKey_build, hc, putMetricsLoop, h0, h1]⟩
